import Mathlib

/-!
Shallow embedding of `src/models/ortho_convnext.py` and
`src/object_detection/mmcv_custom/__init__.py` from the ConvNeXt-ortho
repository, together with theorems settling the specification claims.

Tensors are modelled as total functions from `Fin`-indexed coordinates to
rationals; exact rational arithmetic stands in for floating point, and the
square root (a tensor-library kernel, out of scope per the spec) is an
arbitrary function parameter, which suffices because every claim about the
normalisation is a layout / structural fact that holds for any square-root
function.  Layers supplied entirely by the external tensor library
(`nn.Conv2d`, `nn.Linear` inside a `Block`, `DropPath`, the activations) are
abstract function fields of the corresponding module structures, while
everything the repository itself computes (the manual channels-first
LayerNorm, the permutes, the residual sum, global average pooling, the
classifier linear layer, parameter-initialisation policy, the model
registry) is embedded concretely.
-/

/-- Channels-first tensor of shape (N, C, H, W), as in PyTorch's default
layout. -/
abbrev CF (n c h w : ℕ) : Type := Fin n → Fin c → Fin h → Fin w → ℚ

/-- Channels-last tensor of shape (N, H, W, C). -/
abbrev CL (n h w c : ℕ) : Type := Fin n → Fin h → Fin w → Fin c → ℚ

/-- `x.permute(0, 2, 3, 1)` : (N, C, H, W) → (N, H, W, C). -/
def permute0231 {n c h w : ℕ} (x : CF n c h w) : CL n h w c :=
  fun a i j k => x a k i j

/-- `x.permute(0, 3, 1, 2)` : (N, H, W, C) → (N, C, H, W). -/
def permute0312 {n h w c : ℕ} (x : CL n h w c) : CF n c h w :=
  fun a k i j => x a i j k

/-- Elementwise sum of two channels-first tensors (`input + ...` in
`Block.forward`). -/
def addCF {n c h w : ℕ} (x y : CF n c h w) : CF n c h w :=
  fun a k i j => x a k i j + y a k i j

/-- Mean of a rational-valued function over `Fin k` (PyTorch `.mean`
along one axis; division by zero when `k = 0` follows Lean's `0`
convention, matching no use site of the repository). -/
def meanFin {k : ℕ} (f : Fin k → ℚ) : ℚ :=
  (∑ i, f i) / (k : ℚ)

/-- The manual channels-first LayerNorm of `LayerNorm.forward`
(`data_format == "channels_first"` branch, lines 176–181):
`u = x.mean(1, keepdim=True)`, `s = (x - u).pow(2).mean(1, keepdim=True)`,
`x = (x - u) / torch.sqrt(s + eps)`,
`x = weight[:, None, None] * x + bias[:, None, None]`.
`sqrtFn` abstracts the tensor library's `torch.sqrt`; the parameter vectors
are total functions on ℕ, indexed within `[0, c)` at every use site. -/
def layerNormCF (sqrtFn : ℚ → ℚ) (weight bias : ℕ → ℚ) (eps : ℚ)
    {n c h w : ℕ} (x : CF n c h w) : CF n c h w :=
  fun a k i j =>
    let u : ℚ := meanFin (fun k' => x a k' i j)
    let s : ℚ := meanFin (fun k' => (x a k' i j - u) ^ 2)
    weight k.val * ((x a k i j - u) / sqrtFn (s + eps)) + bias k.val

/-- `F.layer_norm(x, (C,), weight, bias, eps)` over the last dimension of a
channels-last tensor, as used in the `data_format == "channels_last"`
branch: normalisation over the last axis with biased variance and `eps`
under the square root.  This models the external kernel, which the claims
compare the manual branch against. -/
def layerNormLastDim (sqrtFn : ℚ → ℚ) (weight bias : ℕ → ℚ) (eps : ℚ)
    {n h w c : ℕ} (x : CL n h w c) : CL n h w c :=
  fun a i j k =>
    let u : ℚ := meanFin (fun k' => x a i j k')
    let s : ℚ := meanFin (fun k' => (x a i j k' - u) ^ 2)
    weight k.val * ((x a i j k - u) / sqrtFn (s + eps)) + bias k.val

/-- The `LayerNorm` module of the repository: learnable `weight`/`bias`
(constructed as ones and zeros), `eps`, and a `data_format` string. -/
structure LN where
  weight : ℕ → ℚ
  bias : ℕ → ℚ
  eps : ℚ
  data_format : String
  normalized_shape : ℕ

/-- `LayerNorm.__init__`: raises `NotImplementedError` (modelled as
`Except.error`) when `data_format` is not one of `"channels_last"`,
`"channels_first"`; otherwise constructs the module with `weight` all ones
and `bias` all zeros. -/
def LN.mk? (normalized_shape : ℕ) (eps : ℚ) (data_format : String) :
    Except Unit LN :=
  if data_format ∉ ["channels_last", "channels_first"] then
    .error ()
  else
    .ok { weight := fun _ => 1, bias := fun _ => 0, eps := eps
          data_format := data_format, normalized_shape := normalized_shape }

/-- `LayerNorm.forward`: an `if` on `"channels_last"`, an `elif` on
`"channels_first"`, and an implicit fall-through returning `None`
(modelled as `Option.none`).  The module is layout-agnostic: on a 4-axis
tensor the channels-last branch normalises the last axis (`F.layer_norm`)
and the channels-first branch normalises axis 1, exactly as the two
branches of the source do.  (`CF d0 d1 d2 d3` and `CL d0 d1 d2 d3` are
definitionally this same function type, read with different axis names.) -/
def LN.forward (ln : LN) (sqrtFn : ℚ → ℚ) {d0 d1 d2 d3 : ℕ}
    (x : Fin d0 → Fin d1 → Fin d2 → Fin d3 → ℚ) :
    Option (Fin d0 → Fin d1 → Fin d2 → Fin d3 → ℚ) :=
  if ln.data_format = "channels_last" then
    some (layerNormLastDim sqrtFn ln.weight ln.bias ln.eps x)
  else if ln.data_format = "channels_first" then
    some (layerNormCF sqrtFn ln.weight ln.bias ln.eps x)
  else
    none

/-! ## The residual `Block` (functional model for claim C1)

Per the spec, convolution / linear / activation kernels are supplied by the
external tensor library; the repository only fixes the topology.  A `Block`
therefore carries those layers as abstract shape-polymorphic functions (with
the shapes the constructor fixes: `dwconv` is a `dim → dim` channels-first
map, `pwconv1 : dim → 4*dim`, `pwconv2 : 4*dim → dim` on the last axis,
`norm` a channels-last LayerNorm), plus the optional `gamma` layer-scale
parameter and the `drop_path` module. -/

structure Block (dim : ℕ) where
  dwconv : ∀ n h w, CF n dim h w → CF n dim h w
  norm : ∀ n h w, CL n h w dim → CL n h w dim
  pwconv1 : ∀ n h w, CL n h w dim → CL n h w (4 * dim)
  act : ∀ n h w, CL n h w (4 * dim) → CL n h w (4 * dim)
  pwconv2 : ∀ n h w, CL n h w (4 * dim) → CL n h w dim
  gamma : Option (Fin dim → ℚ)
  drop_path : ∀ n h w, CF n dim h w → CF n dim h w

/-- Elementwise scaling of the last axis by `gamma` when it is present
(`if self.gamma is not None: x = self.gamma * x`). -/
def gammaScale {n h w dim : ℕ} (gamma : Option (Fin dim → ℚ))
    (x : CL n h w dim) : CL n h w dim :=
  match gamma with
  | some g => fun a i j k => g k * x a i j k
  | none => x

/-- `Block.forward` (lines 48–61), statement for statement:
save `input`, depthwise conv, permute `(0,2,3,1)`, norm, pwconv1, act,
pwconv2, optional gamma scaling, permute `(0,3,1,2)`, then
`input + drop_path(x)`. -/
def Block.forward {dim : ℕ} (b : Block dim) {n h w : ℕ} (x : CF n dim h w) :
    CF n dim h w :=
  let input := x
  let x1 := b.dwconv n h w x
  let x2 := permute0231 x1
  let x3 := b.norm n h w x2
  let x4 := b.pwconv1 n h w x3
  let x5 := b.act n h w x4
  let x6 := b.pwconv2 n h w x5
  let x7 := gammaScale b.gamma x6
  let x8 := permute0312 x7
  addCF input (b.drop_path n h w x8)

/-- The branch as the spec words it: dwconv, then permute to channels-last,
then LayerNorm, then pwconv1, then the activation, then pwconv2, then
(when gamma is present) elementwise scaling by gamma, then permute back to
channels-first — written as one composition, to be compared against the
imperative `Block.forward`. -/
def Block.branchSpec {dim : ℕ} (b : Block dim) {n h w : ℕ}
    (x : CF n dim h w) : CF n dim h w :=
  permute0312
    (gammaScale b.gamma
      (b.pwconv2 n h w
        (b.act n h w
          (b.pwconv1 n h w
            (b.norm n h w
              (permute0231
                (b.dwconv n h w x)))))))

/-! ## The `ConvNeXt` forward pass (functional model for claim C3)

Four `(downsample_layer, stage)` pairs; the shapes at the five boundary
points are free parameters `c, hs, ws : ℕ → ℕ` (in the source they are
determined by `dims` and the stride-4 stem / stride-2 downsampling, all
inside external `nn.Conv2d` kernels).  `downsample_layers[0]` is the stem.
The final `nn.LayerNorm` is an abstract map on (N, C) matrices; the head's
`nn.Linear` is carried as its weight matrix and bias vector. -/

structure ConvNeXtF (n : ℕ) (c hs ws : ℕ → ℕ) (num_classes : ℕ) where
  downsample_layers : ∀ i : Fin 4,
    CF n (c i.val) (hs i.val) (ws i.val) →
      CF n (c (i.val + 1)) (hs (i.val + 1)) (ws (i.val + 1))
  stages : ∀ i : Fin 4,
    CF n (c (i.val + 1)) (hs (i.val + 1)) (ws (i.val + 1)) →
      CF n (c (i.val + 1)) (hs (i.val + 1)) (ws (i.val + 1))
  norm : (Fin n → Fin (c 4) → ℚ) → (Fin n → Fin (c 4) → ℚ)
  headWeight : Fin num_classes → Fin (c 4) → ℚ
  headBias : Fin num_classes → ℚ

/-- `x.mean([-2, -1])`: global average pooling (N, C, H, W) → (N, C). -/
def meanSpatial {n c h w : ℕ} (x : CF n c h w) : Fin n → Fin c → ℚ :=
  fun a k => (∑ i, ∑ j, x a k i j) / ((h : ℚ) * (w : ℚ))

/-- `nn.Linear` on a (N, C) matrix: `x @ W.T + b`. -/
def linearApply {n c m : ℕ} (weight : Fin m → Fin c → ℚ) (bias : Fin m → ℚ)
    (x : Fin n → Fin c → ℚ) : Fin n → Fin m → ℚ :=
  fun a o => (∑ k, weight o k * x a k) + bias o

/-- `ConvNeXt.forward_features` (lines 140–146): the `for i in range(4)`
loop interleaving `downsample_layers[i]` and `stages[i]`, unrolled at its
literal bound, then `self.norm(x.mean([-2, -1]))`. -/
def ConvNeXtF.forward_features {n : ℕ} {c hs ws : ℕ → ℕ} {m : ℕ}
    (M : ConvNeXtF n c hs ws m) (x : CF n (c 0) (hs 0) (ws 0)) :
    Fin n → Fin (c 4) → ℚ :=
  let x0 := M.stages 0 (M.downsample_layers 0 x)
  let x1 := M.stages 1 (M.downsample_layers 1 x0)
  let x2 := M.stages 2 (M.downsample_layers 2 x1)
  let x3 := M.stages 3 (M.downsample_layers 3 x2)
  M.norm (meanSpatial x3)

/-- `ConvNeXt.forward` (lines 148–151): `forward_features` then the head. -/
def ConvNeXtF.forward {n : ℕ} {c hs ws : ℕ → ℕ} {m : ℕ}
    (M : ConvNeXtF n c hs ws m) (x : CF n (c 0) (hs 0) (ws 0)) :
    Fin n → Fin m → ℚ :=
  linearApply M.headWeight M.headBias (M.forward_features x)

/-! ## Activation configurations and the module/parameter tree

The activation classes (`HermiteActivation`, `FourierActivation`,
`TropicalActivation`, `nn.GELU`) come from external libraries; the
repository only chooses which class is instantiated and with which keyword
arguments (`degree`, `clamp=True`, `act_init=nn.GELU()`,
`requires_grad=False`).  An `ActCfg` records exactly that choice; the
`Bool` fields record whether the keyword was passed (`clampArg`,
`actInitGelu`) and the value of `requires_grad` (`True` unless
`requires_grad=False` is passed). -/

inductive ActCfg where
  | geluAct : ActCfg
  | hermite (degree : ℕ) (clampArg : Bool) (actInitGelu : Bool)
      (requiresGrad : Bool) : ActCfg
  | fourier (degree : ℕ) (actInitGelu : Bool) (requiresGrad : Bool) : ActCfg
  | tropical (degree : ℕ) (actInitGelu : Bool) (requiresGrad : Bool) : ActCfg
deriving DecidableEq, Repr

/-- Symbolic description of how a parameter tensor was (last)
initialised. -/
inductive ParamInit where
  /-- the tensor library's default initialisation of `nn.Conv2d` /
  `nn.Linear` parameters, before any re-initialisation -/
  | defaultInit : ParamInit
  /-- `torch.ones(...)` -/
  | ones : ParamInit
  /-- `torch.zeros(...)` -/
  | zeros : ParamInit
  /-- `v * torch.ones(...)` (the `gamma` layer-scale parameter) -/
  | scaledOnes (v : ℚ) : ParamInit
  /-- `trunc_normal_(w, std=s)` -/
  | truncNormal (std : ℚ) : ParamInit
  /-- `nn.init.constant_(b, c)` -/
  | constant (c : ℚ) : ParamInit
  /-- `.data.mul_(s)` applied after `p` -/
  | mulBy (p : ParamInit) (s : ℚ) : ParamInit
deriving DecidableEq, Repr

/-- A PyTorch module tree, restricted to the module classes this repository
instantiates, with each parameter tensor abstracted to its `ParamInit`
descriptor.  `nn.Sequential` is modelled as a right-nested list
(`seqCons` / `seqNil`); a `Block`'s named children appear in definition
order, with `gamma` (a bare `nn.Parameter`, not a submodule) as an
`Option ParamInit`. -/
inductive PModule where
  | conv2d (weight bias : ParamInit) : PModule
  | linear (weight bias : ParamInit) : PModule
  /-- the repository's own `LayerNorm` class -/
  | layerNormM (data_format : String) (weight bias : ParamInit) : PModule
  /-- the library's `nn.LayerNorm` (the final norm layer) -/
  | torchLayerNorm (weight bias : ParamInit) : PModule
  /-- an instantiated activation module -/
  | actM (a : ActCfg) : PModule
  | identityM : PModule
  | dropPathM (p : ℚ) : PModule
  | seqNil : PModule
  | seqCons (m rest : PModule) : PModule
  | blockM (dwconv norm pwconv1 act pwconv2 : PModule)
      (gamma : Option ParamInit) (drop_path : PModule) : PModule
deriving DecidableEq, Repr

/-- `ConvNeXt._init_weights` (lines 135–138): on an `nn.Conv2d` or
`nn.Linear` module, re-initialise the weight with `trunc_normal_(std=.02)`
and the bias with `constant_(0)`; every other module class is untouched. -/
def initWeights : PModule → PModule
  | .conv2d _ _ => .conv2d (.truncNormal (2 / 100)) (.constant 0)
  | .linear _ _ => .linear (.truncNormal (2 / 100)) (.constant 0)
  | m => m

/-- `self.apply(self._init_weights)`: apply `_init_weights` to every
module in the tree (`nn.Module.apply` recurses into all children and also
visits composite modules themselves, on which `_init_weights` is the
identity since they are neither `nn.Conv2d` nor `nn.Linear`). -/
def applyInitAll : PModule → PModule
  | .seqCons m rest => .seqCons (applyInitAll m) (applyInitAll rest)
  | .blockM a b c d e g f =>
      .blockM (applyInitAll a) (applyInitAll b) (applyInitAll c)
        (applyInitAll d) (applyInitAll e) g (applyInitAll f)
  | m => initWeights m

/-! ## `ConvNeXt.__init__` at the module level -/

/-- The keyword arguments of `ConvNeXt.__init__` with their Python
defaults.  (`in_chans` and `num_classes` only size external conv / linear
kernels and the head; the head's output size is `num_classes`.) -/
structure ConvNeXtCfg where
  in_chans : ℕ := 3
  num_classes : ℕ := 1000
  depths : List ℕ := [3, 3, 9, 3]
  dims : List ℕ := [96, 192, 384, 768]
  drop_path_rate : ℚ := 0
  layer_scale_init_value : ℚ := 1 / 1000000
  head_init_scale : ℚ := 1
  act : ActCfg := .geluAct
deriving DecidableEq, Repr

/-- `torch.linspace(a, b, steps)`: `steps` evenly spaced points from `a`
to `b` inclusive. -/
def linspace (a b : ℚ) (steps : ℕ) : List ℚ :=
  if steps ≤ 1 then List.replicate steps a
  else (List.range steps).map (fun i => a + (b - a) * i / ((steps : ℚ) - 1))

/-- `Block.__init__` (lines 30–46): depthwise `nn.Conv2d`, the
repository's `LayerNorm` (channels-last, the default), `nn.Linear`
`dim → 4*dim`, the activation, `nn.Linear` `4*dim → dim`, `gamma` present
iff `layer_scale_init_value > 0`, and `DropPath(drop_path)` when
`drop_path > 0` else `nn.Identity()`. -/
def mkBlockM (drop_path layer_scale_init_value : ℚ) (act : ActCfg) :
    PModule :=
  .blockM (.conv2d .defaultInit .defaultInit)
    (.layerNormM "channels_last" .ones .zeros)
    (.linear .defaultInit .defaultInit)
    (.actM act)
    (.linear .defaultInit .defaultInit)
    (if layer_scale_init_value > 0 then
       some (.scaledOnes layer_scale_init_value)
     else none)
    (if drop_path > 0 then .dropPathM drop_path else .identityM)

/-- `nn.Sequential(*ms)` as a right-nested module list. -/
def seqOf (ms : List PModule) : PModule :=
  ms.foldr .seqCons .seqNil

/-- The `ConvNeXt` module object: the two `ModuleList`s, the final norm
layer and the classifier head. -/
structure ConvNeXtM where
  downsample_layers : List PModule
  stages : List PModule
  norm : PModule
  head : PModule
deriving DecidableEq, Repr

/-- The module tree as built by the body of `ConvNeXt.__init__`
(lines 93–129), before `self.apply(self._init_weights)` runs: the stem
(stride-4 conv then channels-first `LayerNorm`) plus three
channels-first-`LayerNorm`-then-stride-2-conv downsample layers; four
stages of `depths[i]` blocks of width `dims[i]` with drop-path rates
`torch.linspace(0, drop_path_rate, sum(depths))` read off consecutively;
the final `nn.LayerNorm`; the `nn.Linear` head. -/
def mkConvNeXtRaw (cfg : ConvNeXtCfg) : ConvNeXtM :=
  let stem := seqOf
    [.conv2d .defaultInit .defaultInit,
     .layerNormM "channels_first" .ones .zeros]
  let downs := stem :: (List.range 3).map (fun _ =>
    seqOf [.layerNormM "channels_first" .ones .zeros,
           .conv2d .defaultInit .defaultInit])
  let dp_rates := linspace 0 cfg.drop_path_rate (cfg.depths.foldl (· + ·) 0)
  let stagesL := (List.range 4).map (fun i =>
    seqOf ((List.range (cfg.depths.getD i 0)).map (fun j =>
      mkBlockM (dp_rates.getD ((cfg.depths.take i).foldl (· + ·) 0 + j) 0)
        cfg.layer_scale_init_value cfg.act)))
  { downsample_layers := downs
    stages := stagesL
    norm := .torchLayerNorm .ones .zeros
    head := .linear .defaultInit .defaultInit }

/-- `self.head.weight.data.mul_(head_init_scale)` and
`self.head.bias.data.mul_(head_init_scale)`. -/
def scaleHead (s : ℚ) : PModule → PModule
  | .linear w b => .linear (.mulBy w s) (.mulBy b s)
  | m => m

/-- `ConvNeXt.__init__` in full: build the module tree, run
`self.apply(self._init_weights)` over every submodule, then scale the
head's weight and bias by `head_init_scale`. -/
def mkConvNeXt (cfg : ConvNeXtCfg) : ConvNeXtM :=
  let raw := mkConvNeXtRaw cfg
  { downsample_layers := raw.downsample_layers.map applyInitAll
    stages := raw.stages.map applyInitAll
    norm := applyInitAll raw.norm
    head := scaleHead cfg.head_init_scale (applyInitAll raw.head) }

/-! ## The registered model constructors (lines 184–495)

Each `@register_model` constructor takes `pretrained` and `in_22k` flags
and builds a `ConvNeXt` with fixed `depths`, `dims` and a
`partial`-applied activation class; everything else comes from the
defaults.  (`**kwargs` forwarding is not exercised by any claim and the
flags are never read.) -/

/-- The `model_urls` table (lines 184–194); no constructor consults it. -/
def model_urls : List (String × String) :=
  [("convnext_tiny_1k",
    "https://dl.fbaipublicfiles.com/convnext/convnext_tiny_1k_224_ema.pth"),
   ("convnext_small_1k",
    "https://dl.fbaipublicfiles.com/convnext/convnext_small_1k_224_ema.pth"),
   ("convnext_base_1k",
    "https://dl.fbaipublicfiles.com/convnext/convnext_base_1k_224_ema.pth"),
   ("convnext_large_1k",
    "https://dl.fbaipublicfiles.com/convnext/convnext_large_1k_224_ema.pth"),
   ("convnext_tiny_22k",
    "https://dl.fbaipublicfiles.com/convnext/convnext_tiny_22k_224.pth"),
   ("convnext_small_22k",
    "https://dl.fbaipublicfiles.com/convnext/convnext_small_22k_224.pth"),
   ("convnext_base_22k",
    "https://dl.fbaipublicfiles.com/convnext/convnext_base_22k_224.pth"),
   ("convnext_large_22k",
    "https://dl.fbaipublicfiles.com/convnext/convnext_large_22k_224.pth"),
   ("convnext_xlarge_22k",
    "https://dl.fbaipublicfiles.com/convnext/convnext_xlarge_22k_224.pth")]

def convnext_hermite_tiny (pretrained in_22k : Bool) : ConvNeXtM :=
  mkConvNeXt { depths := [3, 3, 9, 3], dims := [96, 192, 384, 768]
               act := .hermite 3 false false true }

def convnext_hermite_small (pretrained in_22k : Bool) : ConvNeXtM :=
  mkConvNeXt { depths := [3, 3, 27, 3], dims := [96, 192, 384, 768]
               act := .hermite 3 false false true }

def convnext_hermite_base (pretrained in_22k : Bool) : ConvNeXtM :=
  mkConvNeXt { depths := [3, 3, 27, 3], dims := [128, 256, 512, 1024]
               act := .hermite 3 false false true }

def convnext_fourier_tiny (pretrained in_22k : Bool) : ConvNeXtM :=
  mkConvNeXt { depths := [3, 3, 9, 3], dims := [96, 192, 384, 768]
               act := .fourier 5 false true }

def convnext_fourier_small (pretrained in_22k : Bool) : ConvNeXtM :=
  mkConvNeXt { depths := [3, 3, 27, 3], dims := [96, 192, 384, 768]
               act := .fourier 5 false true }

def convnext_fourier_base (pretrained in_22k : Bool) : ConvNeXtM :=
  mkConvNeXt { depths := [3, 3, 27, 3], dims := [128, 256, 512, 1024]
               act := .fourier 5 false true }

def convnext_tropical_tiny (pretrained in_22k : Bool) : ConvNeXtM :=
  mkConvNeXt { depths := [3, 3, 9, 3], dims := [96, 192, 384, 768]
               act := .tropical 5 false true }

def convnext_tropical_small (pretrained in_22k : Bool) : ConvNeXtM :=
  mkConvNeXt { depths := [3, 3, 27, 3], dims := [96, 192, 384, 768]
               act := .tropical 5 false true }

def convnext_tropical_base (pretrained in_22k : Bool) : ConvNeXtM :=
  mkConvNeXt { depths := [3, 3, 27, 3], dims := [128, 256, 512, 1024]
               act := .tropical 5 false true }

def convnext_hermite_deg2_tiny (pretrained in_22k : Bool) : ConvNeXtM :=
  mkConvNeXt { depths := [3, 3, 9, 3], dims := [96, 192, 384, 768]
               act := .hermite 2 false false true }

def convnext_fourier_deg1_tiny (pretrained in_22k : Bool) : ConvNeXtM :=
  mkConvNeXt { depths := [3, 3, 9, 3], dims := [96, 192, 384, 768]
               act := .fourier 1 false true }

def convnext_fourier_deg3_tiny (pretrained in_22k : Bool) : ConvNeXtM :=
  mkConvNeXt { depths := [3, 3, 9, 3], dims := [96, 192, 384, 768]
               act := .fourier 3 false true }

def convnext_fourier_deg4_tiny (pretrained in_22k : Bool) : ConvNeXtM :=
  mkConvNeXt { depths := [3, 3, 9, 3], dims := [96, 192, 384, 768]
               act := .fourier 4 false true }

def convnext_fourier_deg6_tiny (pretrained in_22k : Bool) : ConvNeXtM :=
  mkConvNeXt { depths := [3, 3, 9, 3], dims := [96, 192, 384, 768]
               act := .fourier 6 false true }

def convnext_tropical_deg1_tiny (pretrained in_22k : Bool) : ConvNeXtM :=
  mkConvNeXt { depths := [3, 3, 9, 3], dims := [96, 192, 384, 768]
               act := .tropical 1 false true }

def convnext_tropical_deg3_tiny (pretrained in_22k : Bool) : ConvNeXtM :=
  mkConvNeXt { depths := [3, 3, 9, 3], dims := [96, 192, 384, 768]
               act := .tropical 3 false true }

def convnext_hermite_clamp_tiny (pretrained in_22k : Bool) : ConvNeXtM :=
  mkConvNeXt { depths := [3, 3, 9, 3], dims := [96, 192, 384, 768]
               act := .hermite 3 true false true }

def convnext_tropical_deg6_tiny (pretrained in_22k : Bool) : ConvNeXtM :=
  mkConvNeXt { depths := [3, 3, 9, 3], dims := [96, 192, 384, 768]
               act := .tropical 6 false true }

def convnext_tropical_deg9_tiny (pretrained in_22k : Bool) : ConvNeXtM :=
  mkConvNeXt { depths := [3, 3, 9, 3], dims := [96, 192, 384, 768]
               act := .tropical 9 false true }

def convnext_tropical_deg12_tiny (pretrained in_22k : Bool) : ConvNeXtM :=
  mkConvNeXt { depths := [3, 3, 9, 3], dims := [96, 192, 384, 768]
               act := .tropical 12 false true }

def convnext_hermite_gelu_tiny (pretrained in_22k : Bool) : ConvNeXtM :=
  mkConvNeXt { depths := [3, 3, 9, 3], dims := [96, 192, 384, 768]
               act := .hermite 3 false true true }

def convnext_fourier_deg6_gelu_tiny (pretrained in_22k : Bool) :
    ConvNeXtM :=
  mkConvNeXt { depths := [3, 3, 9, 3], dims := [96, 192, 384, 768]
               act := .fourier 6 true true }

def convnext_tropical_deg12_gelu_tiny (pretrained in_22k : Bool) :
    ConvNeXtM :=
  mkConvNeXt { depths := [3, 3, 9, 3], dims := [96, 192, 384, 768]
               act := .tropical 12 true true }

def convnext_hermite_no_grad_tiny (pretrained in_22k : Bool) : ConvNeXtM :=
  mkConvNeXt { depths := [3, 3, 9, 3], dims := [96, 192, 384, 768]
               act := .hermite 3 false false false }

def convnext_fourier_deg6_no_grad_tiny (pretrained in_22k : Bool) :
    ConvNeXtM :=
  mkConvNeXt { depths := [3, 3, 9, 3], dims := [96, 192, 384, 768]
               act := .fourier 6 false false }

def convnext_tropical_deg12_no_grad_tiny (pretrained in_22k : Bool) :
    ConvNeXtM :=
  mkConvNeXt { depths := [3, 3, 9, 3], dims := [96, 192, 384, 768]
               act := .tropical 12 false false }

/-- The `timm` model registry as populated by the `@register_model`
decorators, in source order: every constructor function defined in the
module, keyed by its function name. -/
def registeredModels : List (String × (Bool → Bool → ConvNeXtM)) :=
  [("convnext_hermite_tiny", convnext_hermite_tiny),
   ("convnext_hermite_small", convnext_hermite_small),
   ("convnext_hermite_base", convnext_hermite_base),
   ("convnext_fourier_tiny", convnext_fourier_tiny),
   ("convnext_fourier_small", convnext_fourier_small),
   ("convnext_fourier_base", convnext_fourier_base),
   ("convnext_tropical_tiny", convnext_tropical_tiny),
   ("convnext_tropical_small", convnext_tropical_small),
   ("convnext_tropical_base", convnext_tropical_base),
   ("convnext_hermite_deg2_tiny", convnext_hermite_deg2_tiny),
   ("convnext_fourier_deg1_tiny", convnext_fourier_deg1_tiny),
   ("convnext_fourier_deg3_tiny", convnext_fourier_deg3_tiny),
   ("convnext_fourier_deg4_tiny", convnext_fourier_deg4_tiny),
   ("convnext_fourier_deg6_tiny", convnext_fourier_deg6_tiny),
   ("convnext_tropical_deg1_tiny", convnext_tropical_deg1_tiny),
   ("convnext_tropical_deg3_tiny", convnext_tropical_deg3_tiny),
   ("convnext_hermite_clamp_tiny", convnext_hermite_clamp_tiny),
   ("convnext_tropical_deg6_tiny", convnext_tropical_deg6_tiny),
   ("convnext_tropical_deg9_tiny", convnext_tropical_deg9_tiny),
   ("convnext_tropical_deg12_tiny", convnext_tropical_deg12_tiny),
   ("convnext_hermite_gelu_tiny", convnext_hermite_gelu_tiny),
   ("convnext_fourier_deg6_gelu_tiny", convnext_fourier_deg6_gelu_tiny),
   ("convnext_tropical_deg12_gelu_tiny", convnext_tropical_deg12_gelu_tiny),
   ("convnext_hermite_no_grad_tiny", convnext_hermite_no_grad_tiny),
   ("convnext_fourier_deg6_no_grad_tiny", convnext_fourier_deg6_no_grad_tiny),
   ("convnext_tropical_deg12_no_grad_tiny",
     convnext_tropical_deg12_no_grad_tiny)]

/-! ## The `mmcv_custom` package interface -/

/-- The `from .module import name` lines of
`src/object_detection/mmcv_custom/__init__.py`, as (module, symbol)
pairs. -/
def mmcv_custom_imports : List (String × String) :=
  [("checkpoint", "load_checkpoint"),
   ("layer_decay_optimizer_constructor",
     "LearningRateDecayOptimizerConstructor"),
   ("customized_text", "CustomizedTextLoggerHook")]

/-- `__all__` of the `mmcv_custom` package (lines 15–19). -/
def mmcv_custom_all : List String :=
  ["load_checkpoint",
   "LearningRateDecayOptimizerConstructor",
   "CustomizedTextLoggerHook"]

/-! ## Claim theorems -/

/-- C1: For every Block and every input tensor x of shape (N, C, H, W),
`Block.forward` returns `input + drop_path(branch(x))`, where `branch` is
dwconv, then permute to channels-last, then LayerNorm, then pwconv1, then
the configured activation, then pwconv2, then (when gamma is not None)
elementwise scaling by gamma, then permute back to channels-first: every
block is a residual block whose output is the unmodified input plus the
(optionally layer-scaled, drop-path'd) transformed branch, in exactly that
order. -/
theorem Block.forward_eq_residual_branch {dim n h w : ℕ} (b : Block dim)
    (x : CF n dim h w) :
    b.forward x = addCF x (b.drop_path n h w (b.branchSpec x)) := rfl

/-- C3: For every ConvNeXt model and every input x, `forward x` equals the
head (a single Linear layer from `dims[-1]` to `num_classes`) applied to
`forward_features x`, and `forward_features` applies exactly the four
(downsample_layer, stage) pairs in index order 0..3 (the stem first), then
the mean over the two spatial dimensions ((N, C, H, W) → (N, C)), then the
final LayerNorm. -/
theorem ConvNeXtF.forward_structure {n : ℕ} {c hs ws : ℕ → ℕ} {m : ℕ}
    (M : ConvNeXtF n c hs ws m) (x : CF n (c 0) (hs 0) (ws 0)) :
    M.forward x = linearApply M.headWeight M.headBias (M.forward_features x)
    ∧ M.forward_features x =
        M.norm (meanSpatial
          (M.stages 3 (M.downsample_layers 3
            (M.stages 2 (M.downsample_layers 2
              (M.stages 1 (M.downsample_layers 1
                (M.stages 0 (M.downsample_layers 0 x))))))))) :=
  ⟨rfl, rfl⟩

/-- C8: The two LayerNorm code paths are equivalent up to data layout: for
every input x of shape (N, C, H, W) and every weight, bias, eps (and any
square-root kernel), the manual channels-first LayerNorm — mean over the
channel dimension, biased variance, eps under the square root — equals
permuting to (N, H, W, C), applying the channels-last LayerNorm
(`F.layer_norm` over the last dimension) with the same parameters, and
permuting back. -/
theorem layerNormCF_eq_permute_layerNormLastDim (sqrtFn : ℚ → ℚ)
    (weight bias : ℕ → ℚ) (eps : ℚ) {n c h w : ℕ} (x : CF n c h w) :
    layerNormCF sqrtFn weight bias eps x =
      permute0312 (layerNormLastDim sqrtFn weight bias eps (permute0231 x)) :=
  rfl

/-- C9: `LayerNorm.__init__` raises `NotImplementedError` if and only if
`data_format` is neither `"channels_last"` nor `"channels_first"`; for
every successfully constructed LayerNorm, `forward` takes one of its two
branches and returns a tensor — the implicit fall-through returning `None`
is unreachable. -/
theorem LN.mk_ok_iff_and_forward_total (ns : ℕ) (eps : ℚ) (df : String) :
    ((∃ ln, LN.mk? ns eps df = .ok ln) ↔
      (df = "channels_last" ∨ df = "channels_first"))
    ∧ ∀ ln, LN.mk? ns eps df = .ok ln →
        ∀ (sqrtFn : ℚ → ℚ) (d0 d1 d2 d3 : ℕ)
          (x : Fin d0 → Fin d1 → Fin d2 → Fin d3 → ℚ),
          (ln.forward sqrtFn x).isSome = true := by
  have hmem : (df ∈ ["channels_last", "channels_first"]) ↔
      (df = "channels_last" ∨ df = "channels_first") := by
    simp
  constructor
  · constructor
    · rintro ⟨ln, hln⟩
      by_contra hdf
      rw [← hmem] at hdf
      simp [LN.mk?, hdf] at hln
    · intro hdf
      rw [← hmem] at hdf
      exact ⟨{ weight := fun _ => 1, bias := fun _ => 0, eps := eps
               data_format := df, normalized_shape := ns },
             by simp [LN.mk?, hdf]⟩
  · intro ln hln sqrtFn d0 d1 d2 d3 x
    have hdf : df ∈ ["channels_last", "channels_first"] := by
      by_contra hdf
      simp [LN.mk?, hdf] at hln
    have hformat : ln.data_format = df := by
      simp only [LN.mk?, hdf, not_true_eq_false, if_neg, ite_false,
        reduceIte] at hln
      cases hln
      rfl
    rcases hmem.mp hdf with h | h <;>
      simp [LN.forward, hformat, h]

/-- Witness for C9 at `normalized_shape = 4`, `eps = 1`,
`data_format = "channels_first"`, on a concrete 1×1×1×1 tensor. -/
theorem LN.mk_ok_iff_and_forward_total_witness :
    (∃ ln, LN.mk? 4 1 "channels_first" = .ok ln)
    ∧ (LN.forward
        { weight := fun _ => 1, bias := fun _ => 0, eps := 1
          data_format := "channels_first", normalized_shape := 4 }
        id (fun (_ : Fin 1) (_ : Fin 1) (_ : Fin 1) (_ : Fin 1) => (0 : ℚ))
      ).isSome = true :=
  ⟨(LN.mk_ok_iff_and_forward_total 4 1 "channels_first").1.mpr (Or.inr rfl),
   (LN.mk_ok_iff_and_forward_total 4 1 "channels_first").2 _ rfl id 1 1 1 1 _⟩

/-- C7: `__all__` of the `mmcv_custom` package is exactly
`["load_checkpoint", "LearningRateDecayOptimizerConstructor",
"CustomizedTextLoggerHook"]` — three utilities, corresponding one-to-one
to the imported checkpoint loader, optimizer parameter-group constructor,
and logging hook. -/
theorem mmcv_custom_all_spec :
    mmcv_custom_all =
      ["load_checkpoint", "LearningRateDecayOptimizerConstructor",
       "CustomizedTextLoggerHook"]
    ∧ mmcv_custom_all = mmcv_custom_imports.map Prod.snd
    ∧ mmcv_custom_all.length = 3 :=
  ⟨rfl, rfl, rfl⟩

/-! ## Collecting activations and conv/linear initialisations from a
module tree -/

/-- All activation-module configurations in a module tree, in traversal
order. -/
def actsOf : PModule → List ActCfg
  | .actM a => [a]
  | .seqCons m rest => actsOf m ++ actsOf rest
  | .blockM a b c d e _ f =>
      actsOf a ++ actsOf b ++ actsOf c ++ actsOf d ++ actsOf e ++ actsOf f
  | _ => []

/-- All activation configurations of a whole model. -/
def modelActs (M : ConvNeXtM) : List ActCfg :=
  (M.downsample_layers.map actsOf).flatten
    ++ (M.stages.map actsOf).flatten ++ actsOf M.norm ++ actsOf M.head

/-- `sum(depths)` restricted to the four stages the constructor reads. -/
def totalDepth (cfg : ConvNeXtCfg) : ℕ :=
  cfg.depths.getD 0 0 +
    (cfg.depths.getD 1 0 + (cfg.depths.getD 2 0 + cfg.depths.getD 3 0))

/-- The (weight, bias) initialisation descriptors of every `nn.Conv2d` and
`nn.Linear` in a module tree. -/
def convLinearInits : PModule → List (ParamInit × ParamInit)
  | .conv2d w b => [(w, b)]
  | .linear w b => [(w, b)]
  | .seqCons m rest => convLinearInits m ++ convLinearInits rest
  | .blockM a b c d e _ f =>
      convLinearInits a ++ convLinearInits b ++ convLinearInits c
        ++ convLinearInits d ++ convLinearInits e ++ convLinearInits f
  | _ => []

/-- Every module of the model except the head (which `__init__` rescales
afterwards). -/
def allModulesList (M : ConvNeXtM) : List PModule :=
  M.downsample_layers ++ (M.stages ++ [M.norm])

/-- Whether an activation configuration was constructed with
`clamp=True`. -/
def actClampArg : ActCfg → Bool
  | .hermite _ c _ _ => c
  | _ => false

/-- Whether a registered constructor builds a model any of whose
activations was passed `clamp=True`. -/
def entryPassesClamp (e : String × (Bool → Bool → ConvNeXtM)) : Bool :=
  (modelActs (e.2 false false)).any actClampArg

/-! ### Structural lemmas -/

/-- `_init_weights` re-initialises parameters but never changes which
modules exist, so the activation list is unchanged. -/
theorem actsOf_applyInitAll (m : PModule) :
    actsOf (applyInitAll m) = actsOf m := by
  induction m with
  | conv2d w b => rfl
  | linear w b => rfl
  | layerNormM df w b => rfl
  | torchLayerNorm w b => rfl
  | actM a => rfl
  | identityM => rfl
  | dropPathM p => rfl
  | seqNil => rfl
  | seqCons m rest ih1 ih2 => simp only [applyInitAll, actsOf, ih1, ih2]
  | blockM a b c d e g f iha ihb ihc ihd ihe ihf =>
      simp only [applyInitAll, actsOf, iha, ihb, ihc, ihd, ihe, ihf]

/-- A single block contributes exactly its activation. -/
theorem actsOf_mkBlockM (dp lsiv : ℚ) (a : ActCfg) :
    actsOf (mkBlockM dp lsiv a) = [a] := by
  by_cases h : dp > 0 <;> simp only [mkBlockM, h] <;> rfl

theorem actsOf_seqOf (ms : List PModule) :
    actsOf (seqOf ms) = (ms.map actsOf).flatten := by
  induction ms with
  | nil => rfl
  | cons m rest ih =>
      simp only [seqOf, List.foldr_cons, List.map_cons, List.flatten_cons]
      rw [← ih]
      rfl

theorem flatten_map_const {α β : Type} (l : List α) (a : β) :
    (l.map fun _ => [a]).flatten = List.replicate l.length a := by
  induction l with
  | nil => rfl
  | cons x xs ih => simp [ih, List.replicate_succ]

/-- A stage of `k` blocks contributes `k` copies of the activation. -/
theorem actsOf_blockSeq (k : ℕ) (f : ℕ → ℚ) (lsiv : ℚ) (a : ActCfg) :
    actsOf (seqOf ((List.range k).map fun j => mkBlockM (f j) lsiv a)) =
      List.replicate k a := by
  rw [actsOf_seqOf, List.map_map]
  have hc : (actsOf ∘ fun j => mkBlockM (f j) lsiv a) = fun _ => [a] :=
    funext fun j => actsOf_mkBlockM (f j) lsiv a
  rw [hc, flatten_map_const, List.length_range]

/-- The activations of a constructed ConvNeXt are exactly `sum(depths)`
copies of the configured activation: one per block, none anywhere else. -/
theorem modelActs_mkConvNeXt (cfg : ConvNeXtCfg) :
    modelActs (mkConvNeXt cfg) = List.replicate (totalDepth cfg) cfg.act := by
  have hds : (mkConvNeXt cfg).downsample_layers =
      (mkConvNeXtRaw cfg).downsample_layers.map applyInitAll := rfl
  have hst : (mkConvNeXt cfg).stages =
      (mkConvNeXtRaw cfg).stages.map applyInitAll := rfl
  have hnorm : actsOf (mkConvNeXt cfg).norm = [] := rfl
  have hhead : actsOf (mkConvNeXt cfg).head = [] := rfl
  have hrange4 : List.range 4 = [0, 1, 2, 3] := rfl
  have hdownz : ∀ m ∈ (mkConvNeXtRaw cfg).downsample_layers, actsOf m = [] := by
    intro m hm
    have : (mkConvNeXtRaw cfg).downsample_layers =
        seqOf [.conv2d .defaultInit .defaultInit,
               .layerNormM "channels_first" .ones .zeros]
          :: (List.range 3).map (fun _ =>
            seqOf [.layerNormM "channels_first" .ones .zeros,
                   .conv2d .defaultInit .defaultInit]) := rfl
    rw [this] at hm
    rcases List.mem_cons.mp hm with rfl | hm'
    · rfl
    · obtain ⟨j, -, rfl⟩ := List.mem_map.mp hm'
      rfl
  have hstages : (mkConvNeXtRaw cfg).stages.map actsOf =
      (List.range 4).map (fun i =>
        List.replicate (cfg.depths.getD i 0) cfg.act) := by
    have : (mkConvNeXtRaw cfg).stages =
        (List.range 4).map (fun i =>
          seqOf ((List.range (cfg.depths.getD i 0)).map (fun j =>
            mkBlockM
              ((linspace 0 cfg.drop_path_rate
                  (cfg.depths.foldl (· + ·) 0)).getD
                ((cfg.depths.take i).foldl (· + ·) 0 + j) 0)
              cfg.layer_scale_init_value cfg.act))) := rfl
    rw [this, List.map_map]
    refine List.map_congr_left (fun i _ => ?_)
    exact actsOf_blockSeq (cfg.depths.getD i 0) _ _ _
  rw [modelActs, hds, hst, hnorm, hhead]
  simp only [List.map_map]
  have hdflat : (List.map (actsOf ∘ applyInitAll)
      (mkConvNeXtRaw cfg).downsample_layers).flatten = [] := by
    rw [List.flatten_eq_nil_iff]
    intro l hl
    obtain ⟨m, hm, rfl⟩ := List.mem_map.mp hl
    show actsOf (applyInitAll m) = []
    rw [actsOf_applyInitAll]
    exact hdownz m hm
  have hsflat : (List.map (actsOf ∘ applyInitAll)
      (mkConvNeXtRaw cfg).stages).flatten =
      List.replicate (totalDepth cfg) cfg.act := by
    have hcomp : List.map (actsOf ∘ applyInitAll) (mkConvNeXtRaw cfg).stages
        = (mkConvNeXtRaw cfg).stages.map actsOf := by
      refine List.map_congr_left (fun m _ => ?_)
      exact actsOf_applyInitAll m
    rw [hcomp, hstages, hrange4]
    simp only [List.map_cons, List.map_nil, List.flatten_cons,
      List.flatten_nil, List.append_nil, ← List.replicate_add]
    rfl
  rw [hdflat, hsflat]
  simp

/-- After `self.apply(self._init_weights)`, every `nn.Conv2d` / `nn.Linear`
anywhere in a module tree carries `trunc_normal_(std=0.02)` on its weight
and `constant_(0)` on its bias. -/
theorem convLinearInits_applyInitAll (m : PModule) :
    ∀ pr ∈ convLinearInits (applyInitAll m),
      pr = (ParamInit.truncNormal (2 / 100), ParamInit.constant 0) := by
  induction m with
  | conv2d w b =>
      intro pr hpr
      have h : convLinearInits (applyInitAll (.conv2d w b)) =
          [(ParamInit.truncNormal (2 / 100), ParamInit.constant 0)] := rfl
      rw [h, List.mem_singleton] at hpr
      exact hpr
  | linear w b =>
      intro pr hpr
      have h : convLinearInits (applyInitAll (.linear w b)) =
          [(ParamInit.truncNormal (2 / 100), ParamInit.constant 0)] := rfl
      rw [h, List.mem_singleton] at hpr
      exact hpr
  | layerNormM df w b => intro pr hpr; cases hpr
  | torchLayerNorm w b => intro pr hpr; cases hpr
  | actM a => intro pr hpr; cases hpr
  | identityM => intro pr hpr; cases hpr
  | dropPathM p => intro pr hpr; cases hpr
  | seqNil => intro pr hpr; cases hpr
  | seqCons m rest ih1 ih2 =>
      intro pr hpr
      have h : convLinearInits (applyInitAll (.seqCons m rest)) =
          convLinearInits (applyInitAll m)
            ++ convLinearInits (applyInitAll rest) := rfl
      rw [h] at hpr
      rcases List.mem_append.mp hpr with h' | h'
      · exact ih1 pr h'
      · exact ih2 pr h'
  | blockM a b c d e g f iha ihb ihc ihd ihe ihf =>
      intro pr hpr
      have h : convLinearInits (applyInitAll (.blockM a b c d e g f)) =
          convLinearInits (applyInitAll a) ++ convLinearInits (applyInitAll b)
            ++ convLinearInits (applyInitAll c)
            ++ convLinearInits (applyInitAll d)
            ++ convLinearInits (applyInitAll e)
            ++ convLinearInits (applyInitAll f) := rfl
      rw [h] at hpr
      simp only [List.mem_append] at hpr
      rcases hpr with ((((h' | h') | h') | h') | h') | h'
      · exact iha pr h'
      · exact ihb pr h'
      · exact ihc pr h'
      · exact ihd pr h'
      · exact ihe pr h'
      · exact ihf pr h'

/-- C2: Every registered `convnext_hermite_*`, `convnext_fourier_*`,
`convnext_tropical_*` constructor builds a ConvNeXt whose blocks'
activation is, respectively, a `HermiteActivation`, `FourierActivation`,
or `TropicalActivation` with the degree named in the constructor (3 for
the main hermite variants, 5 for the main fourier and tropical variants)
— one parametric activation per block and no other activation module in
the model, rather than a fixed nonlinearity such as GELU. -/
theorem registered_models_activations (p i : Bool) :
    modelActs (convnext_hermite_tiny p i) =
      List.replicate 18 (.hermite 3 false false true)
    ∧ modelActs (convnext_hermite_small p i) =
      List.replicate 36 (.hermite 3 false false true)
    ∧ modelActs (convnext_hermite_base p i) =
      List.replicate 36 (.hermite 3 false false true)
    ∧ modelActs (convnext_fourier_tiny p i) =
      List.replicate 18 (.fourier 5 false true)
    ∧ modelActs (convnext_fourier_small p i) =
      List.replicate 36 (.fourier 5 false true)
    ∧ modelActs (convnext_fourier_base p i) =
      List.replicate 36 (.fourier 5 false true)
    ∧ modelActs (convnext_tropical_tiny p i) =
      List.replicate 18 (.tropical 5 false true)
    ∧ modelActs (convnext_tropical_small p i) =
      List.replicate 36 (.tropical 5 false true)
    ∧ modelActs (convnext_tropical_base p i) =
      List.replicate 36 (.tropical 5 false true)
    ∧ modelActs (convnext_hermite_deg2_tiny p i) =
      List.replicate 18 (.hermite 2 false false true)
    ∧ modelActs (convnext_fourier_deg1_tiny p i) =
      List.replicate 18 (.fourier 1 false true)
    ∧ modelActs (convnext_fourier_deg3_tiny p i) =
      List.replicate 18 (.fourier 3 false true)
    ∧ modelActs (convnext_fourier_deg4_tiny p i) =
      List.replicate 18 (.fourier 4 false true)
    ∧ modelActs (convnext_fourier_deg6_tiny p i) =
      List.replicate 18 (.fourier 6 false true)
    ∧ modelActs (convnext_tropical_deg1_tiny p i) =
      List.replicate 18 (.tropical 1 false true)
    ∧ modelActs (convnext_tropical_deg3_tiny p i) =
      List.replicate 18 (.tropical 3 false true)
    ∧ modelActs (convnext_hermite_clamp_tiny p i) =
      List.replicate 18 (.hermite 3 true false true)
    ∧ modelActs (convnext_tropical_deg6_tiny p i) =
      List.replicate 18 (.tropical 6 false true)
    ∧ modelActs (convnext_tropical_deg9_tiny p i) =
      List.replicate 18 (.tropical 9 false true)
    ∧ modelActs (convnext_tropical_deg12_tiny p i) =
      List.replicate 18 (.tropical 12 false true)
    ∧ modelActs (convnext_hermite_gelu_tiny p i) =
      List.replicate 18 (.hermite 3 false true true)
    ∧ modelActs (convnext_fourier_deg6_gelu_tiny p i) =
      List.replicate 18 (.fourier 6 true true)
    ∧ modelActs (convnext_tropical_deg12_gelu_tiny p i) =
      List.replicate 18 (.tropical 12 true true)
    ∧ modelActs (convnext_hermite_no_grad_tiny p i) =
      List.replicate 18 (.hermite 3 false false false)
    ∧ modelActs (convnext_fourier_deg6_no_grad_tiny p i) =
      List.replicate 18 (.fourier 6 false false)
    ∧ modelActs (convnext_tropical_deg12_no_grad_tiny p i) =
      List.replicate 18 (.tropical 12 false false)
    ∧ (ActCfg.hermite 3 false false true ≠ ActCfg.geluAct
        ∧ ActCfg.fourier 5 false true ≠ ActCfg.geluAct
        ∧ ActCfg.tropical 5 false true ≠ ActCfg.geluAct) :=
  ⟨modelActs_mkConvNeXt _, modelActs_mkConvNeXt _, modelActs_mkConvNeXt _,
   modelActs_mkConvNeXt _, modelActs_mkConvNeXt _, modelActs_mkConvNeXt _,
   modelActs_mkConvNeXt _, modelActs_mkConvNeXt _, modelActs_mkConvNeXt _,
   modelActs_mkConvNeXt _, modelActs_mkConvNeXt _, modelActs_mkConvNeXt _,
   modelActs_mkConvNeXt _, modelActs_mkConvNeXt _, modelActs_mkConvNeXt _,
   modelActs_mkConvNeXt _, modelActs_mkConvNeXt _, modelActs_mkConvNeXt _,
   modelActs_mkConvNeXt _, modelActs_mkConvNeXt _, modelActs_mkConvNeXt _,
   modelActs_mkConvNeXt _, modelActs_mkConvNeXt _, modelActs_mkConvNeXt _,
   modelActs_mkConvNeXt _, modelActs_mkConvNeXt _,
   by decide, by decide, by decide⟩

/-- C4: Parameter initialization happens exactly once, during `ConvNeXt`
construction: every `nn.Conv2d` and `nn.Linear` submodule has its weight
initialized with truncated normal of std 0.02 and its bias set to 0, and
afterwards the classifier head's weight and bias are each multiplied by
`head_init_scale`.  (In this embedding the constructor is the only
parameter-writing operation; the forward functions are pure maps that
never touch `ParamInit` descriptors.) -/
theorem convnext_init_policy (cfg : ConvNeXtCfg) :
    (∀ m ∈ allModulesList (mkConvNeXt cfg),
      ∀ pr ∈ convLinearInits m,
        pr = (ParamInit.truncNormal (2 / 100), ParamInit.constant 0))
    ∧ (mkConvNeXt cfg).head =
        .linear (.mulBy (.truncNormal (2 / 100)) cfg.head_init_scale)
                (.mulBy (.constant 0) cfg.head_init_scale) := by
  refine ⟨?_, rfl⟩
  intro m hm
  have hall : allModulesList (mkConvNeXt cfg) =
      (mkConvNeXtRaw cfg).downsample_layers.map applyInitAll
        ++ ((mkConvNeXtRaw cfg).stages.map applyInitAll
          ++ [applyInitAll (mkConvNeXtRaw cfg).norm]) := rfl
  rw [hall] at hm
  rcases List.mem_append.mp hm with h | h
  · obtain ⟨y, -, rfl⟩ := List.mem_map.mp h
    exact convLinearInits_applyInitAll y
  · rcases List.mem_append.mp h with h | h
    · obtain ⟨y, -, rfl⟩ := List.mem_map.mp h
      exact convLinearInits_applyInitAll y
    · rw [List.mem_singleton] at h
      subst h
      exact convLinearInits_applyInitAll _

/-- Witness for C4 at the default configuration: the initialised stem is a
member of the model's module list, its conv's (weight, bias) descriptor
pair is in its conv/linear list, and that pair is the standard
initialisation. -/
theorem convnext_init_policy_witness :
    (applyInitAll (seqOf
        [.conv2d .defaultInit .defaultInit,
         .layerNormM "channels_first" .ones .zeros])
      ∈ allModulesList (mkConvNeXt {}))
    ∧ ((ParamInit.truncNormal (2 / 100), ParamInit.constant 0)
        ∈ convLinearInits (applyInitAll (seqOf
            [.conv2d .defaultInit .defaultInit,
             .layerNormM "channels_first" .ones .zeros])))
    ∧ (ParamInit.truncNormal (2 / 100), ParamInit.constant 0)
        = (ParamInit.truncNormal (2 / 100), ParamInit.constant 0) :=
  ⟨List.mem_append_left _ (List.mem_cons_self _ _),
   List.mem_cons_self _ _,
   (convnext_init_policy {}).1 _
     (List.mem_append_left _ (List.mem_cons_self _ _)) _
     (List.mem_cons_self _ _)⟩

/-- C5: clamping is optional and off by default: among all registered
constructors exactly one — `convnext_hermite_clamp_tiny` — passes
`clamp=True` to its activation family, and the corresponding base
constructor `convnext_hermite_tiny` builds `HermiteActivation` with the
same degree 3 and no clamp argument. -/
theorem clamp_passed_by_exactly_one_constructor (p i : Bool) :
    (registeredModels.filter entryPassesClamp).map Prod.fst =
      ["convnext_hermite_clamp_tiny"]
    ∧ modelActs (convnext_hermite_tiny p i) =
        List.replicate 18 (.hermite 3 false false true)
    ∧ modelActs (convnext_hermite_clamp_tiny p i) =
        List.replicate 18 (.hermite 3 true false true) := by
  refine ⟨?_, modelActs_mkConvNeXt _, modelActs_mkConvNeXt _⟩
  have h1 : entryPassesClamp ("convnext_hermite_tiny",
      convnext_hermite_tiny) = false := by
    show (modelActs (convnext_hermite_tiny false false)).any actClampArg
      = false
    rw [show modelActs (convnext_hermite_tiny false false) =
      List.replicate 18 (.hermite 3 false false true) from
      modelActs_mkConvNeXt _]
    rfl
  have h2 : entryPassesClamp ("convnext_hermite_small",
      convnext_hermite_small) = false := by
    show (modelActs (convnext_hermite_small false false)).any actClampArg
      = false
    rw [show modelActs (convnext_hermite_small false false) =
      List.replicate 36 (.hermite 3 false false true) from
      modelActs_mkConvNeXt _]
    rfl
  have h3 : entryPassesClamp ("convnext_hermite_base",
      convnext_hermite_base) = false := by
    show (modelActs (convnext_hermite_base false false)).any actClampArg
      = false
    rw [show modelActs (convnext_hermite_base false false) =
      List.replicate 36 (.hermite 3 false false true) from
      modelActs_mkConvNeXt _]
    rfl
  have h4 : entryPassesClamp ("convnext_fourier_tiny",
      convnext_fourier_tiny) = false := by
    show (modelActs (convnext_fourier_tiny false false)).any actClampArg
      = false
    rw [show modelActs (convnext_fourier_tiny false false) =
      List.replicate 18 (.fourier 5 false true) from
      modelActs_mkConvNeXt _]
    rfl
  have h5 : entryPassesClamp ("convnext_fourier_small",
      convnext_fourier_small) = false := by
    show (modelActs (convnext_fourier_small false false)).any actClampArg
      = false
    rw [show modelActs (convnext_fourier_small false false) =
      List.replicate 36 (.fourier 5 false true) from
      modelActs_mkConvNeXt _]
    rfl
  have h6 : entryPassesClamp ("convnext_fourier_base",
      convnext_fourier_base) = false := by
    show (modelActs (convnext_fourier_base false false)).any actClampArg
      = false
    rw [show modelActs (convnext_fourier_base false false) =
      List.replicate 36 (.fourier 5 false true) from
      modelActs_mkConvNeXt _]
    rfl
  have h7 : entryPassesClamp ("convnext_tropical_tiny",
      convnext_tropical_tiny) = false := by
    show (modelActs (convnext_tropical_tiny false false)).any actClampArg
      = false
    rw [show modelActs (convnext_tropical_tiny false false) =
      List.replicate 18 (.tropical 5 false true) from
      modelActs_mkConvNeXt _]
    rfl
  have h8 : entryPassesClamp ("convnext_tropical_small",
      convnext_tropical_small) = false := by
    show (modelActs (convnext_tropical_small false false)).any actClampArg
      = false
    rw [show modelActs (convnext_tropical_small false false) =
      List.replicate 36 (.tropical 5 false true) from
      modelActs_mkConvNeXt _]
    rfl
  have h9 : entryPassesClamp ("convnext_tropical_base",
      convnext_tropical_base) = false := by
    show (modelActs (convnext_tropical_base false false)).any actClampArg
      = false
    rw [show modelActs (convnext_tropical_base false false) =
      List.replicate 36 (.tropical 5 false true) from
      modelActs_mkConvNeXt _]
    rfl
  have h10 : entryPassesClamp ("convnext_hermite_deg2_tiny",
      convnext_hermite_deg2_tiny) = false := by
    show (modelActs (convnext_hermite_deg2_tiny false false)).any
      actClampArg = false
    rw [show modelActs (convnext_hermite_deg2_tiny false false) =
      List.replicate 18 (.hermite 2 false false true) from
      modelActs_mkConvNeXt _]
    rfl
  have h11 : entryPassesClamp ("convnext_fourier_deg1_tiny",
      convnext_fourier_deg1_tiny) = false := by
    show (modelActs (convnext_fourier_deg1_tiny false false)).any
      actClampArg = false
    rw [show modelActs (convnext_fourier_deg1_tiny false false) =
      List.replicate 18 (.fourier 1 false true) from
      modelActs_mkConvNeXt _]
    rfl
  have h12 : entryPassesClamp ("convnext_fourier_deg3_tiny",
      convnext_fourier_deg3_tiny) = false := by
    show (modelActs (convnext_fourier_deg3_tiny false false)).any
      actClampArg = false
    rw [show modelActs (convnext_fourier_deg3_tiny false false) =
      List.replicate 18 (.fourier 3 false true) from
      modelActs_mkConvNeXt _]
    rfl
  have h13 : entryPassesClamp ("convnext_fourier_deg4_tiny",
      convnext_fourier_deg4_tiny) = false := by
    show (modelActs (convnext_fourier_deg4_tiny false false)).any
      actClampArg = false
    rw [show modelActs (convnext_fourier_deg4_tiny false false) =
      List.replicate 18 (.fourier 4 false true) from
      modelActs_mkConvNeXt _]
    rfl
  have h14 : entryPassesClamp ("convnext_fourier_deg6_tiny",
      convnext_fourier_deg6_tiny) = false := by
    show (modelActs (convnext_fourier_deg6_tiny false false)).any
      actClampArg = false
    rw [show modelActs (convnext_fourier_deg6_tiny false false) =
      List.replicate 18 (.fourier 6 false true) from
      modelActs_mkConvNeXt _]
    rfl
  have h15 : entryPassesClamp ("convnext_tropical_deg1_tiny",
      convnext_tropical_deg1_tiny) = false := by
    show (modelActs (convnext_tropical_deg1_tiny false false)).any
      actClampArg = false
    rw [show modelActs (convnext_tropical_deg1_tiny false false) =
      List.replicate 18 (.tropical 1 false true) from
      modelActs_mkConvNeXt _]
    rfl
  have h16 : entryPassesClamp ("convnext_tropical_deg3_tiny",
      convnext_tropical_deg3_tiny) = false := by
    show (modelActs (convnext_tropical_deg3_tiny false false)).any
      actClampArg = false
    rw [show modelActs (convnext_tropical_deg3_tiny false false) =
      List.replicate 18 (.tropical 3 false true) from
      modelActs_mkConvNeXt _]
    rfl
  have h17 : entryPassesClamp ("convnext_hermite_clamp_tiny",
      convnext_hermite_clamp_tiny) = true := by
    show (modelActs (convnext_hermite_clamp_tiny false false)).any
      actClampArg = true
    rw [show modelActs (convnext_hermite_clamp_tiny false false) =
      List.replicate 18 (.hermite 3 true false true) from
      modelActs_mkConvNeXt _]
    rfl
  have h18 : entryPassesClamp ("convnext_tropical_deg6_tiny",
      convnext_tropical_deg6_tiny) = false := by
    show (modelActs (convnext_tropical_deg6_tiny false false)).any
      actClampArg = false
    rw [show modelActs (convnext_tropical_deg6_tiny false false) =
      List.replicate 18 (.tropical 6 false true) from
      modelActs_mkConvNeXt _]
    rfl
  have h19 : entryPassesClamp ("convnext_tropical_deg9_tiny",
      convnext_tropical_deg9_tiny) = false := by
    show (modelActs (convnext_tropical_deg9_tiny false false)).any
      actClampArg = false
    rw [show modelActs (convnext_tropical_deg9_tiny false false) =
      List.replicate 18 (.tropical 9 false true) from
      modelActs_mkConvNeXt _]
    rfl
  have h20 : entryPassesClamp ("convnext_tropical_deg12_tiny",
      convnext_tropical_deg12_tiny) = false := by
    show (modelActs (convnext_tropical_deg12_tiny false false)).any
      actClampArg = false
    rw [show modelActs (convnext_tropical_deg12_tiny false false) =
      List.replicate 18 (.tropical 12 false true) from
      modelActs_mkConvNeXt _]
    rfl
  have h21 : entryPassesClamp ("convnext_hermite_gelu_tiny",
      convnext_hermite_gelu_tiny) = false := by
    show (modelActs (convnext_hermite_gelu_tiny false false)).any
      actClampArg = false
    rw [show modelActs (convnext_hermite_gelu_tiny false false) =
      List.replicate 18 (.hermite 3 false true true) from
      modelActs_mkConvNeXt _]
    rfl
  have h22 : entryPassesClamp ("convnext_fourier_deg6_gelu_tiny",
      convnext_fourier_deg6_gelu_tiny) = false := by
    show (modelActs (convnext_fourier_deg6_gelu_tiny false false)).any
      actClampArg = false
    rw [show modelActs (convnext_fourier_deg6_gelu_tiny false false) =
      List.replicate 18 (.fourier 6 true true) from
      modelActs_mkConvNeXt _]
    rfl
  have h23 : entryPassesClamp ("convnext_tropical_deg12_gelu_tiny",
      convnext_tropical_deg12_gelu_tiny) = false := by
    show (modelActs (convnext_tropical_deg12_gelu_tiny false false)).any
      actClampArg = false
    rw [show modelActs (convnext_tropical_deg12_gelu_tiny false false) =
      List.replicate 18 (.tropical 12 true true) from
      modelActs_mkConvNeXt _]
    rfl
  have h24 : entryPassesClamp ("convnext_hermite_no_grad_tiny",
      convnext_hermite_no_grad_tiny) = false := by
    show (modelActs (convnext_hermite_no_grad_tiny false false)).any
      actClampArg = false
    rw [show modelActs (convnext_hermite_no_grad_tiny false false) =
      List.replicate 18 (.hermite 3 false false false) from
      modelActs_mkConvNeXt _]
    rfl
  have h25 : entryPassesClamp ("convnext_fourier_deg6_no_grad_tiny",
      convnext_fourier_deg6_no_grad_tiny) = false := by
    show (modelActs (convnext_fourier_deg6_no_grad_tiny false false)).any
      actClampArg = false
    rw [show modelActs (convnext_fourier_deg6_no_grad_tiny false false) =
      List.replicate 18 (.fourier 6 false false) from
      modelActs_mkConvNeXt _]
    rfl
  have h26 : entryPassesClamp ("convnext_tropical_deg12_no_grad_tiny",
      convnext_tropical_deg12_no_grad_tiny) = false := by
    show (modelActs (convnext_tropical_deg12_no_grad_tiny false false)).any
      actClampArg = false
    rw [show modelActs (convnext_tropical_deg12_no_grad_tiny false false) =
      List.replicate 18 (.tropical 12 false false) from
      modelActs_mkConvNeXt _]
    rfl
  simp [registeredModels, h1, h2, h3, h4, h5, h6, h7, h8, h9, h10, h11,
    h12, h13, h14, h15, h16, h17, h18, h19, h20, h21, h22, h23, h24, h25,
    h26]

/-- C6: Every model-constructor function defined in the models module —
`convnext_hermite_tiny` through `convnext_tropical_deg12_no_grad_tiny` —
is registered with the external training framework's model registry under
its own name, and each registry entry is exactly that constructor, each of
which returns the `ConvNeXt` it builds. -/
theorem registry_covers_all_constructors (p i : Bool) :
    registeredModels.map Prod.fst =
      ["convnext_hermite_tiny", "convnext_hermite_small",
       "convnext_hermite_base", "convnext_fourier_tiny",
       "convnext_fourier_small", "convnext_fourier_base",
       "convnext_tropical_tiny", "convnext_tropical_small",
       "convnext_tropical_base", "convnext_hermite_deg2_tiny",
       "convnext_fourier_deg1_tiny", "convnext_fourier_deg3_tiny",
       "convnext_fourier_deg4_tiny", "convnext_fourier_deg6_tiny",
       "convnext_tropical_deg1_tiny", "convnext_tropical_deg3_tiny",
       "convnext_hermite_clamp_tiny", "convnext_tropical_deg6_tiny",
       "convnext_tropical_deg9_tiny", "convnext_tropical_deg12_tiny",
       "convnext_hermite_gelu_tiny", "convnext_fourier_deg6_gelu_tiny",
       "convnext_tropical_deg12_gelu_tiny", "convnext_hermite_no_grad_tiny",
       "convnext_fourier_deg6_no_grad_tiny",
       "convnext_tropical_deg12_no_grad_tiny"]
    ∧ registeredModels.map (fun e => e.2 p i) =
      [convnext_hermite_tiny p i, convnext_hermite_small p i,
       convnext_hermite_base p i, convnext_fourier_tiny p i,
       convnext_fourier_small p i, convnext_fourier_base p i,
       convnext_tropical_tiny p i, convnext_tropical_small p i,
       convnext_tropical_base p i, convnext_hermite_deg2_tiny p i,
       convnext_fourier_deg1_tiny p i, convnext_fourier_deg3_tiny p i,
       convnext_fourier_deg4_tiny p i, convnext_fourier_deg6_tiny p i,
       convnext_tropical_deg1_tiny p i, convnext_tropical_deg3_tiny p i,
       convnext_hermite_clamp_tiny p i, convnext_tropical_deg6_tiny p i,
       convnext_tropical_deg9_tiny p i, convnext_tropical_deg12_tiny p i,
       convnext_hermite_gelu_tiny p i, convnext_fourier_deg6_gelu_tiny p i,
       convnext_tropical_deg12_gelu_tiny p i,
       convnext_hermite_no_grad_tiny p i,
       convnext_fourier_deg6_no_grad_tiny p i,
       convnext_tropical_deg12_no_grad_tiny p i]
    ∧ registeredModels.length = 26 :=
  ⟨rfl, rfl, rfl⟩

/-- C10: for every registered constructor, `pretrained` and `in_22k` have
no effect: two calls differing only in those flags construct identical
models (and no entry of `model_urls` is consulted — the construction is a
pure function of the fixed configuration). -/
theorem constructor_flags_have_no_effect :
    (∀ e ∈ registeredModels, ∀ p i p' i' : Bool, e.2 p i = e.2 p' i')
    ∧ model_urls.length = 9 := by
  refine ⟨?_, rfl⟩
  intro e he
  fin_cases he <;> exact fun _ _ _ _ => rfl

/-- Witness for C10 at the first registry entry and concrete flags. -/
theorem constructor_flags_have_no_effect_witness :
    convnext_hermite_tiny true false = convnext_hermite_tiny false true :=
  constructor_flags_have_no_effect.1
    ("convnext_hermite_tiny", convnext_hermite_tiny)
    (List.mem_cons_self _ _) true false false true
